import Mathlib

/-!
# Verification of the nexus_back multi-tenant message bridge routing engine

A shallow embedding, in Lean 4, of the parts of the `nexus_back` Django
repository that the frozen claims C1..C10 are about, together with theorems
settling each claim.

Conventions used throughout:

* Python dicts whose values are opaque to the code are modelled as ordered
  association lists (`List (String × String)` and friends), matching Python's
  insertion-ordered dict semantics.
* Python exceptions thrown by a sub-expression are modelled by `Option`-valued
  lookups/calls: `none` means the sub-expression raised; the enclosing
  `try/except` branch of the source is then taken explicitly in the embedding.
* Attribute lookups on Django model instances are modelled against the fields
  the model class actually declares: an access to an attribute the class does
  not declare is an `AttributeError`, i.e. `none`.
* External collaborators (the Fernet cipher, the `json` codec's serialized
  form, HTTP calls, the Matrix client) are passed in as function parameters;
  their documented contracts appear as explicit hypotheses where a theorem
  needs them, never postulated globally.
-/

/-! ## Credential vault — `companies/models.py`,
`CompanyBridgeConfiguration.set_encrypted_config` / `get_decrypted_config`

The source derives a Fernet key from the process-wide secret
`settings.BRIDGE_ENCRYPTION_KEY` by padding the secret with `'0'` to 32
characters (or truncating it to 32), then base64url-encoding the first 32
bytes.  The derivation code is textually duplicated in the two methods; we
embed it twice (`deriveKeyStore` for `set_encrypted_config`, `deriveKeyLoad`
for `get_decrypted_config`) and prove the two agree. -/

/-- The credential map: a Python dict of string keys and values, as passed to
`set_encrypted_config(config_data)` and returned by `get_decrypted_config`. -/
abbrev CredMap := List (String × String)

/-- The `key_string.ljust(32, '0')` / `key_string[:32]` normalization from the
source: pad with `'0'` up to 32 characters when shorter, truncate to 32 when
longer, else unchanged. -/
def normalizeKeyString (s : String) : String :=
  if s.length < 32 then s ++ String.mk (List.replicate (32 - s.length) '0')
  else if s.length > 32 then String.mk (s.toList.take 32)
  else s

/-- Key derivation as written in `set_encrypted_config`:
`base64.urlsafe_b64encode(key_string.encode()[:32])` applied to the
normalized secret.  The base64url encoder is the external `base64` library,
passed in as `b64`. -/
def deriveKeyStore (b64 : String → String) (secret : String) : String :=
  b64 (String.mk ((normalizeKeyString secret).toList.take 32))

/-- Key derivation as written in `get_decrypted_config` — the same lines,
duplicated in the source. -/
def deriveKeyLoad (b64 : String → String) (secret : String) : String :=
  b64 (String.mk ((normalizeKeyString secret).toList.take 32))

/-- The two duplicated derivations agree for every secret: both methods hand
Fernet the same key. -/
theorem deriveKeyStore_eq_deriveKeyLoad (b64 : String → String) (secret : String) :
    deriveKeyStore b64 secret = deriveKeyLoad b64 secret := rfl

/-- Embedding of `set_encrypted_config(config_data)` (Fernet branch, the `cryptography`
package importable): `self.encrypted_config = Fernet(key).encrypt(json.dumps(config_data))`.
`fernetEnc` is the external cipher (`Fernet(key).encrypt`), `jsonDumps` the
external `json.dumps` restricted to credential maps. -/
def setEncryptedConfig (fernetEnc : String → String → String)
    (jsonDumps : CredMap → String) (b64 : String → String)
    (secret : String) (config_data : CredMap) : String :=
  fernetEnc (deriveKeyStore b64 secret) (jsonDumps config_data)

/-- Embedding of `get_decrypted_config()` (Fernet branch).  Faithful to the source:

* `if not self.encrypted_config: return {}` — the empty-blob guard;
* `f.decrypt(...)` raising (`fernetDec ... = none`, e.g. corrupt blob or a
  blob encrypted under a different secret) lands in `except Exception:
  return {}`;
* `json.loads` raising (`jsonLoads ... = none`) lands in the same handler.

Every failure path returns the empty dict `[]`; the method's return type has
no error constructor at all. -/
def getDecryptedConfig (fernetDec : String → String → Option String)
    (jsonLoads : String → Option CredMap) (b64 : String → String)
    (secret : String) (encrypted_config : String) : CredMap :=
  if encrypted_config = "" then []
  else
    match fernetDec (deriveKeyLoad b64 secret) encrypted_config with
    | none => []
    | some decrypted_data =>
      match jsonLoads decrypted_data with
      | none => []
      | some config_data => config_data

/-- Claim C1 (as stated, refuted): at the concrete inputs below,
`get_decrypted_config` returns the empty credential map `[]` — not any
explicit `CredentialUnavailable` error — both when the stored blob is absent
(`""`, first conjunct) and when decryption fails on a corrupt/foreign blob
(`fernetDec` returning `none`, second conjunct).  The claim asserts an
explicit error is returned and an empty credential map never is; this closed
evaluation proves that false. -/
theorem c1_counterexample :
    getDecryptedConfig (fun _ b => some b) (fun _ => some [("token", "t")])
      (fun s => s) "secret-key" "" = ([] : CredMap) ∧
    getDecryptedConfig (fun _ _ => none) (fun _ => some [("token", "t")])
      (fun s => s) "secret-key" "corrupt-blob" = ([] : CredMap) := by
  constructor <;> rfl

/-- Claim C1 (amended): for every cipher, codec, secret and stored blob, if
the blob is absent (`""`) or Fernet decryption of it fails, then
`get_decrypted_config` returns the empty dict `[]` — silently
indistinguishable from "not configured"; no error value exists in its return
type. -/
theorem c1_amended_fails_open (fernetDec : String → String → Option String)
    (jsonLoads : String → Option CredMap) (b64 : String → String)
    (secret blob : String)
    (h : blob = "" ∨ fernetDec (deriveKeyLoad b64 secret) blob = none) :
    getDecryptedConfig fernetDec jsonLoads b64 secret blob = [] := by
  rcases h with h | h
  · simp [getDecryptedConfig, h]
  · unfold getDecryptedConfig
    by_cases hb : blob = ""
    · simp [hb]
    · simp [hb, h]

/-- Witness for `c1_amended_fails_open` at concrete inputs. -/
theorem c1_amended_fails_open_witness :
    getDecryptedConfig (fun _ _ => none) (fun _ => some [("token", "t")])
      (fun s => s) "secret-key" "corrupt-blob" = [] :=
  c1_amended_fails_open (fun _ _ => none) (fun _ => some [("token", "t")])
    (fun s => s) "secret-key" "corrupt-blob" (Or.inr rfl)

/-- Claim C8 (confirmed): the encrypt/decrypt round trip.  Hypotheses are the
documented contracts of the external collaborators, instantiated exactly at
the values the source passes them:

* `hfernet` — Fernet's contract: decrypting with the key `k` a token
  encrypted with the same `k` returns the plaintext (`cryptography`'s
  documented behaviour);
* `hnonempty` — Fernet tokens are never the empty string (they carry a
  version byte, IV and HMAC);
* `hjson` — `json.loads(json.dumps(d)) == d` for a string-to-string dict.

The program-side content proved here: both methods derive the same key from
the same process-wide secret, the empty-blob guard does not fire on a real
token, and the stored blob decodes back to exactly the map given to
`set_encrypted_config`. -/
theorem c8_roundtrip (fernetEnc : String → String → String)
    (fernetDec : String → String → Option String)
    (jsonDumps : CredMap → String) (jsonLoads : String → Option CredMap)
    (b64 : String → String) (secret : String) (creds : CredMap)
    (hfernet : ∀ k m, fernetDec k (fernetEnc k m) = some m)
    (hnonempty : ∀ k m, fernetEnc k m ≠ "")
    (hjson : jsonLoads (jsonDumps creds) = some creds) :
    getDecryptedConfig fernetDec jsonLoads b64 secret
      (setEncryptedConfig fernetEnc jsonDumps b64 secret creds) = creds := by
  unfold getDecryptedConfig setEncryptedConfig
  rw [deriveKeyStore_eq_deriveKeyLoad]
  simp [hnonempty _ _, hfernet _ _, hjson]

/-- Witness for `c8_roundtrip`: a concrete reversible cipher (prepend a
marker character), a concrete serializer for the one-entry credential map
`[("access_token", "abc123")]`, and the identity for base64url. -/
theorem c8_roundtrip_witness :
    getDecryptedConfig
      (fun _ b => match b.toList with
        | 'E' :: rest => some (String.mk rest)
        | _ => none)
      (fun s => if s = "access_token=abc123" then some [("access_token", "abc123")] else none)
      (fun s => s) "secret-key"
      (setEncryptedConfig (fun _ m => String.mk ('E' :: m.toList))
        (fun _ => "access_token=abc123") (fun s => s) "secret-key"
        [("access_token", "abc123")]) = [("access_token", "abc123")] :=
  c8_roundtrip (fun _ m => String.mk ('E' :: m.toList))
    (fun _ b => match b.toList with
      | 'E' :: rest => some (String.mk rest)
      | _ => none)
    (fun _ => "access_token=abc123")
    (fun s => if s = "access_token=abc123" then some [("access_token", "abc123")] else none)
    (fun s => s) "secret-key" [("access_token", "abc123")]
    (fun k m => by cases m; rfl)
    (fun k m => by
      intro h
      have : ('E' :: m.toList) = "".toList := congrArg String.toList h
      simp at this)
    (by rfl)

/-! ## AI response orchestration — `matrix_integration/services/bridge_manager.py`,
`BridgeManager._process_with_ai`, and `matrix_integration/models.py`,
`AIAssistantConfig`

`AIAssistantConfig` declares exactly the fields below (plus timestamps).
Note there is **no** `enabled` field, although `_process_with_ai` reads
`config.enabled`. -/

/-- The `AIAssistantConfig` Django model's declared fields
(`matrix_integration/models.py`).  Floats are modelled as `Rat`. -/
structure AIAssistantConfig where
  model_name : String
  system_prompt : String
  max_tokens : Nat
  temperature : Rat
  auto_respond : Bool
  escalate_to_human : Bool
  confidence_threshold : Rat
  response_delay_seconds : Nat
  typing_indicator : Bool
  deriving Repr, DecidableEq

/-- The Python attribute access `config.enabled`.  `enabled` is not among
`AIAssistantConfig`'s declared fields, so the access raises
`AttributeError` for every instance: the lookup is `none`. -/
def AIAssistantConfig.enabled_attr (_config : AIAssistantConfig) : Option Bool :=
  none

/-- The dict returned by `AIService.generate_response_sync` when generation
succeeds: generated text plus a numeric confidence. -/
structure AIResponseDict where
  content : String
  confidence : Rat
  deriving Repr, DecidableEq

/-- Observable outcome of `_process_with_ai`: whether an auto-response was
sent back to the platform (`self.send_message` reached), and whether the
conversation was flagged for human attention (no statement in the method —
or anywhere on this path — ever sets such a flag). -/
structure ProcessAIOutcome where
  sent : Bool
  flagged : Bool
  deriving Repr, DecidableEq

/-- Embedding of `BridgeManager._process_with_ai`, with the two external lookups passed
in: `config?` is `AIAssistantConfig.objects.filter(company=...).first()` and
`response?` is the scorer result `ai_instance.generate_response_sync(...)`
(`none` when generation failed/returned `None`).  Control flow from the
source:

* `if not config or not config.enabled: return` — when no config row exists
  the method returns; when one exists, `config.enabled` raises
  `AttributeError` (no such field), which the enclosing
  `except Exception` swallows, and the method returns;
* otherwise (unreachable), `if response and response.get('content'):` sends
  the response via `self.send_message` with **no** check of `auto_respond`,
  `confidence_threshold`, or any escalation keyword — no such gating code
  exists in the method;
* no branch flags the conversation; the model set has no escalation-keyword
  field at all. -/
def processWithAI (config? : Option AIAssistantConfig)
    (response? : Option AIResponseDict) : ProcessAIOutcome :=
  match config? with
  | none => { sent := false, flagged := false }
  | some config =>
    match config.enabled_attr with
    | none => { sent := false, flagged := false }
    | some enabled =>
      if !enabled then { sent := false, flagged := false }
      else
        match response? with
        | none => { sent := false, flagged := false }
        | some response =>
          if response.content ≠ "" then { sent := true, flagged := false }
          else { sent := false, flagged := false }

/-- Claim C2 (as stated, refuted): with an `AIAssistantConfig` having
auto-respond enabled and threshold `0.8`, and a scorer response of
confidence `0.5`, the claim requires "no auto-send occurs **and** the
conversation is flagged for human attention".  Evaluating
`_process_with_ai` at exactly that input: no send occurs but the
conversation is *not* flagged — no flagging code exists on this path — so
the claimed conjunction is false. -/
theorem c2_counterexample :
    ¬ ((processWithAI
        (some { model_name := "gemini-pro",
                system_prompt := "You are a helpful customer service assistant.",
                max_tokens := 1000, temperature := 7/10,
                auto_respond := true, escalate_to_human := true,
                confidence_threshold := 4/5,
                response_delay_seconds := 2, typing_indicator := true })
        (some { content := "Sure, happy to help!", confidence := 1/2 })).sent = false ∧
      (processWithAI
        (some { model_name := "gemini-pro",
                system_prompt := "You are a helpful customer service assistant.",
                max_tokens := 1000, temperature := 7/10,
                auto_respond := true, escalate_to_human := true,
                confidence_threshold := 4/5,
                response_delay_seconds := 2, typing_indicator := true })
        (some { content := "Sure, happy to help!", confidence := 1/2 })).flagged = true) := by
  decide

/-- Claim C2 (amended): `_process_with_ai` applies no auto-respond,
confidence-threshold or escalation-keyword gating whatsoever, and never
flags a conversation; moreover, because it guards on `config.enabled` — a
field `AIAssistantConfig` does not declare — the attribute access raises and
is swallowed, so the method never sends an auto-response either: for every
configuration lookup result and every scorer response, the outcome is
no-send, no-flag. -/
theorem c2_amended_no_gating (config? : Option AIAssistantConfig)
    (response? : Option AIResponseDict) :
    processWithAI config? response? = { sent := false, flagged := false } := by
  cases config? with
  | none => rfl
  | some config => rfl

/-! ## Conversation store — `messaging/models.py`, `Conversation`, and
`matrix_integration/services/matrix_bridge_service.py`,
`MatrixBridgeService.process_bridge_message`

`Conversation` declares `unique_together = ['company', 'external_id',
'platform']`, and every inbound path obtains its row through Django's
`Conversation.objects.get_or_create(company=..., external_id=...,
platform=..., defaults=...)`.

Concurrency model.  Django's `get_or_create` first performs a racy read
(`get`), and on a miss attempts an `INSERT` that the database checks
atomically against the unique constraint; on `IntegrityError` it re-reads
and returns the existing row.  We model one invocation as (a) a read that
may or may not have seen the row (`sawExisting`), followed by (b) — only on
a miss — the constraint-checked insert `constraintInsert`, which is atomic.
A concurrent execution of N invocations is any sequence of such operations;
`ValidRun` records the one physical constraint on the reads: a read can only
have *seen* a row that exists when the operation executes (rows are never
deleted, so a row seen earlier still exists). -/

/-- The `unique_together` triple identifying a `Conversation`:
`(company, external_id, platform)`. -/
structure ConvKey where
  company : Nat
  external_id : String
  platform : String
  deriving Repr, DecidableEq

/-- A stored `Conversation` row: its identifying triple plus the
`defaults` payload supplied on creation (participants/status/metadata,
opaque here). -/
structure ConvRow where
  key : ConvKey
  payload : String
  deriving Repr, DecidableEq

/-- The conversation table: rows in insertion order. -/
abbrev ConvStore := List ConvRow

/-- Number of stored rows carrying a given triple. -/
def keyCount (store : ConvStore) (k : ConvKey) : Nat :=
  (store.filter (fun r => r.key = k)).length

/-- Whether some row with the triple exists. -/
def containsKey (store : ConvStore) (k : ConvKey) : Bool :=
  store.any (fun r => r.key = k)

/-- The `unique_together` invariant: at most one row per triple. -/
def storeUnique (store : ConvStore) : Prop :=
  ∀ k, keyCount store k ≤ 1

/-- The database-side half of `get_or_create`: an `INSERT` checked
atomically against the unique constraint.  If a row with the triple already
exists the insert is refused (Django then returns the existing row); else
the new row is appended. -/
def constraintInsert (store : ConvStore) (k : ConvKey) (payload : String) : ConvStore :=
  if containsKey store k then store else store ++ [{ key := k, payload := payload }]

/-- One `get_or_create` invocation as it interleaves with others:
`sawExisting` is the outcome of its racy initial `get` (true means the read
found a row, so the invocation returns it and writes nothing). -/
structure UpsertOp where
  key : ConvKey
  payload : String
  sawExisting : Bool
  deriving Repr, DecidableEq

/-- Effect of one invocation on the table. -/
def applyUpsert (store : ConvStore) (op : UpsertOp) : ConvStore :=
  if op.sawExisting then store else constraintInsert store op.key op.payload

/-- Effect of a whole interleaving. -/
def runUpserts (store : ConvStore) (ops : List UpsertOp) : ConvStore :=
  ops.foldl applyUpsert store

/-- Physical validity of an interleaving: an operation's racy read can
report "seen" only if the row exists at the moment the operation runs
(reads see a past state, and rows, once inserted, persist). -/
def ValidRun (store : ConvStore) : List UpsertOp → Prop
  | [] => True
  | op :: ops =>
    (op.sawExisting = true → containsKey store op.key = true) ∧
      ValidRun (applyUpsert store op) ops

instance : ∀ (store : ConvStore) (ops : List UpsertOp), Decidable (ValidRun store ops)
  | _, [] => .isTrue trivial
  | store, op :: ops =>
    have : Decidable (ValidRun (applyUpsert store op) ops) := instDecidableValidRun _ _
    instDecidableAnd

theorem keyCount_append (a b : ConvStore) (k : ConvKey) :
    keyCount (a ++ b) k = keyCount a k + keyCount b k := by
  simp [keyCount, List.filter_append]

theorem containsKey_iff_keyCount_pos (store : ConvStore) (k : ConvKey) :
    containsKey store k = true ↔ 0 < keyCount store k := by
  unfold containsKey keyCount
  constructor
  · intro h
    obtain ⟨r, hr, hp⟩ := List.any_eq_true.mp h
    have hm : r ∈ store.filter (fun r => decide (r.key = k)) :=
      List.mem_filter.mpr ⟨hr, hp⟩
    exact List.length_pos.mpr (List.ne_nil_of_mem hm)
  · intro h
    obtain ⟨r, hm⟩ := List.exists_mem_of_length_pos h
    obtain ⟨hr, hp⟩ := List.mem_filter.mp hm
    exact List.any_eq_true.mpr ⟨r, hr, hp⟩

theorem keyCount_constraintInsert_self (store : ConvStore) (k : ConvKey)
    (payload : String) (h : keyCount store k ≤ 1) :
    keyCount (constraintInsert store k payload) k = 1 := by
  unfold constraintInsert
  cases hc : containsKey store k with
  | true =>
    have hpos := (containsKey_iff_keyCount_pos store k).mp hc
    simp only [hc, if_true]
    omega
  | false =>
    have hz : keyCount store k = 0 := by
      by_contra hnz
      rw [(containsKey_iff_keyCount_pos store k).mpr (Nat.pos_of_ne_zero hnz)] at hc
      simp at hc
    simp only [hc, Bool.false_eq_true, if_false]
    rw [keyCount_append, hz]
    simp [keyCount]

theorem keyCount_constraintInsert_other (store : ConvStore) (k k' : ConvKey)
    (payload : String) (hne : k' ≠ k) :
    keyCount (constraintInsert store k payload) k' = keyCount store k' := by
  unfold constraintInsert
  cases hc : containsKey store k with
  | true => simp only [hc, if_true]
  | false =>
    simp only [hc, Bool.false_eq_true, if_false]
    rw [keyCount_append]
    have hz : keyCount [{ key := k, payload := payload }] k' = 0 := by
      simp [keyCount, hne.symm]
    omega

theorem keyCount_constraintInsert_le (store : ConvStore) (k k' : ConvKey)
    (payload : String) (h : keyCount store k' ≤ 1) :
    keyCount (constraintInsert store k payload) k' ≤ 1 := by
  by_cases hk : k' = k
  · subst hk
    exact (keyCount_constraintInsert_self store k' payload h).le
  · rw [keyCount_constraintInsert_other store k k' payload hk]
    exact h

theorem storeUnique_applyUpsert (store : ConvStore) (op : UpsertOp)
    (h : storeUnique store) : storeUnique (applyUpsert store op) := by
  intro k
  unfold applyUpsert
  cases hs : op.sawExisting with
  | true => simp only [if_true]; exact h k
  | false =>
    simp only [Bool.false_eq_true, if_false]
    exact keyCount_constraintInsert_le store op.key k op.payload (h k)

theorem storeUnique_runUpserts (store : ConvStore) (ops : List UpsertOp)
    (h : storeUnique store) : storeUnique (runUpserts store ops) := by
  induction ops generalizing store with
  | nil => exact h
  | cons op ops ih =>
    exact ih (applyUpsert store op) (storeUnique_applyUpsert store op h)

theorem keyCount_applyUpsert_stable (store : ConvStore) (op : UpsertOp) (k : ConvKey)
    (h : keyCount store k = 1) : keyCount (applyUpsert store op) k = 1 := by
  unfold applyUpsert
  cases hs : op.sawExisting with
  | true => simpa only [if_true] using h
  | false =>
    simp only [Bool.false_eq_true, if_false]
    by_cases hk : k = op.key
    · rw [hk] at h ⊢
      exact keyCount_constraintInsert_self store op.key op.payload h.le
    · rw [keyCount_constraintInsert_other store op.key k op.payload hk]
      exact h

theorem keyCount_runUpserts_stable (store : ConvStore) (ops : List UpsertOp) (k : ConvKey)
    (h : keyCount store k = 1) : keyCount (runUpserts store ops) k = 1 := by
  induction ops generalizing store with
  | nil => exact h
  | cons op ops ih =>
    exact ih (applyUpsert store op) (keyCount_applyUpsert_stable store op k h)

/-- Claim C3 (confirmed): under the `unique_together` constraint, any valid
interleaving of `get_or_create` invocations — any number of them, for any
mixture of triples — preserves global uniqueness of the
`(tenant, external_id, platform)` triple, and if at least one invocation in
the run targets triple `k`, the final table holds exactly one row for `k`.
In particular N concurrent upserts of the same triple yield exactly one
`Conversation` row. -/
theorem c3_upsert_unique (store : ConvStore) (ops : List UpsertOp) (k : ConvKey)
    (hvalid : ValidRun store ops) (huniq : storeUnique store)
    (hk : ∃ op ∈ ops, op.key = k) :
    storeUnique (runUpserts store ops) ∧ keyCount (runUpserts store ops) k = 1 := by
  refine ⟨storeUnique_runUpserts store ops huniq, ?_⟩
  induction ops generalizing store with
  | nil => exact absurd hk (by simp)
  | cons op ops ih =>
    obtain ⟨hsee, hrest⟩ := hvalid
    by_cases hop : op.key = k
    · subst hop
      have hone : keyCount (applyUpsert store op) op.key = 1 := by
        unfold applyUpsert
        cases hs : op.sawExisting with
        | true =>
          have hc := hsee hs
          have hpos := (containsKey_iff_keyCount_pos store op.key).mp hc
          have hle := huniq op.key
          simp only [if_true]
          omega
        | false =>
          simp only [Bool.false_eq_true, if_false]
          exact keyCount_constraintInsert_self store op.key op.payload (huniq op.key)
      exact keyCount_runUpserts_stable (applyUpsert store op) ops op.key hone
    · have hk' : ∃ o ∈ ops, o.key = k := by
        rcases hk with ⟨o, ho, hko⟩
        rcases List.mem_cons.mp ho with h | h
        · exact absurd (h ▸ hko) hop
        · exact ⟨o, h, hko⟩
      exact ih (applyUpsert store op) hrest
        (storeUnique_applyUpsert store op huniq) hk'

/-- Witness for `c3_upsert_unique`: three interleaved upserts of the same
WhatsApp identity for tenant 1 (two racy-miss inserts and one read that saw
the row), starting from an empty table — exactly one row results. -/
theorem c3_upsert_unique_witness :
    storeUnique (runUpserts []
      [⟨⟨1, "+15551234567", "whatsapp"⟩, "p1", false⟩,
       ⟨⟨1, "+15551234567", "whatsapp"⟩, "p2", false⟩,
       ⟨⟨1, "+15551234567", "whatsapp"⟩, "p3", true⟩])
      ∧ keyCount (runUpserts []
      [⟨⟨1, "+15551234567", "whatsapp"⟩, "p1", false⟩,
       ⟨⟨1, "+15551234567", "whatsapp"⟩, "p2", false⟩,
       ⟨⟨1, "+15551234567", "whatsapp"⟩, "p3", true⟩])
      ⟨1, "+15551234567", "whatsapp"⟩ = 1 :=
  c3_upsert_unique []
    [⟨⟨1, "+15551234567", "whatsapp"⟩, "p1", false⟩,
     ⟨⟨1, "+15551234567", "whatsapp"⟩, "p2", false⟩,
     ⟨⟨1, "+15551234567", "whatsapp"⟩, "p3", true⟩]
    ⟨1, "+15551234567", "whatsapp"⟩
    (by decide) (fun kk => by simp [keyCount]) (by decide)

/-! ## WhatsApp webhook parsing — two distinct parsers exist in the source

1. `matrix_integration/services/platform_services/whatsapp_service.py`,
   `WhatsAppService.process_incoming_message`: reads `entry[0]` only and
   `return`s from inside the innermost `for message in messages:` loop, so
   it yields at most the *first* message of the payload.
2. `messaging/services/whatsapp_service.py`,
   `WhatsAppService.process_webhook`: iterates every
   `entry[] / changes[] / value.messages[]` and calls
   `_process_incoming_message` per message, appending one `Message` row per
   webhook message in payload order.

The payload is modelled structurally after the WhatsApp Business webhook
JSON; `Option` fields are dict keys that may be absent. -/

/-- A media object (`image` / `document` / `video` value):
`caption`, `filename`, and `id` keys, each possibly absent. -/
structure WAMedia where
  caption : Option String
  filename : Option String
  mediaId : Option String
  deriving Repr, DecidableEq

/-- One element of `value.messages[]`.  `text` models
`message["text"]["body"]`; `hasAudio` models presence of the `audio` key
(whose contents the source never reads). -/
structure WAMsg where
  mid : Option String
  sender : Option String
  ts : Option String
  mtype : Option String
  text : Option String
  image : Option WAMedia
  document : Option WAMedia
  audio : Bool
  video : Option WAMedia
  deriving Repr, DecidableEq

/-- One element of `value.contacts[]`: `profile.name`. -/
structure WAContact where
  profileName : Option String
  deriving Repr, DecidableEq

/-- One element of `entry[].changes[]`: its `value.messages` and
`value.contacts` arrays. -/
structure WAChange where
  messages : List WAMsg
  contacts : List WAContact
  deriving Repr, DecidableEq

/-- One element of `entry[]`. -/
structure WAEntry where
  changes : List WAChange
  deriving Repr, DecidableEq

/-- The webhook payload: its `entry` array. -/
structure WAPayload where
  entry : List WAEntry
  deriving Repr, DecidableEq

/-- All messages of a payload in payload order — the count the claim calls
K. -/
def allMessages (p : WAPayload) : List WAMsg :=
  p.entry.flatMap (fun e => e.changes.flatMap (fun c => c.messages))

/-- Python's `str.title()` as applied to the single-word message-type
strings reaching it: first letter upper-cased, rest lower-cased. -/
def pyTitle (s : String) : String :=
  match s.toList with
  | [] => ""
  | c :: rest => String.mk (c.toUpper :: rest.map Char.toLower)

/-- Content extraction of the matrix-integration parser
(`process_incoming_message`), branch for branch:
text → `text.body`; image → `"[Image] caption-or-default"`; document →
`"[Document] filename-or-default"`; audio → fixed placeholder; video →
`"[Video] caption-or-default"`; anything else → titled unsupported
placeholder. -/
def matrixExtractContent (m : WAMsg) : String :=
  let message_type := m.mtype.getD "unknown"
  if message_type = "text" then m.text.getD ""
  else if message_type = "image" then
    "[Image] " ++ ((m.image.bind (·.caption)).getD "Image received")
  else if message_type = "document" then
    "[Document] " ++ ((m.document.bind (·.filename)).getD "Document received")
  else if message_type = "audio" then "[Audio message received]"
  else if message_type = "video" then
    "[Video] " ++ ((m.video.bind (·.caption)).getD "Video received")
  else "[" ++ pyTitle message_type ++ "] Unsupported message type"

/-- The dict `process_incoming_message` returns for the one message it
reaches. -/
structure MatrixParsedMsg where
  external_id : String
  content : String
  mtype : String
  sender_id : String
  sender_name : String
  timestamp : String
  deriving Repr, DecidableEq

/-- The `contacts[0].profile.name` extraction (`''` when the array is empty or
the keys are missing). -/
def contactName (contacts : List WAContact) : String :=
  match contacts with
  | [] => ""
  | c :: _ => c.profileName.getD ""

/-- The `for change in changes:` / `for message in messages:` loops of
`process_incoming_message`: the first message of the first change that has
any, together with that change's contacts. -/
def firstMessage : List WAChange → Option (WAMsg × List WAContact)
  | [] => none
  | c :: rest =>
    match c.messages with
    | [] => firstMessage rest
    | m :: _ => some (m, c.contacts)

/-- Embedding of `WhatsAppService.process_incoming_message`
(matrix-integration variant).  `entry = webhook_data.get('entry', [{}])[0]`
reads only the first entry (an empty `entry` array raises `IndexError`,
caught → `None`); the loops then `return` on the very first message.  The
dict accesses `message['id']`, `message['from']`, `message['timestamp']`
raise `KeyError` when absent, caught by the enclosing handler → `None`. -/
def matrixProcessIncomingMessage (p : WAPayload) : Option MatrixParsedMsg :=
  match p.entry with
  | [] => none
  | e :: _ =>
    match firstMessage e.changes with
    | none => none
    | some (m, contacts) =>
      match m.mid, m.sender, m.ts with
      | some i, some s, some t =>
        some { external_id := i, content := matrixExtractContent m,
               mtype := m.mtype.getD "unknown", sender_id := s,
               sender_name := contactName contacts, timestamp := t }
      | _, _, _ => none

/-- The events the matrix-integration parser yields, as a list (zero or
one). -/
def matrixParsedEvents (p : WAPayload) : List MatrixParsedMsg :=
  match matrixProcessIncomingMessage p with
  | none => []
  | some ev => [ev]

/-- A `Message` row as created by
`messaging/services/whatsapp_service.py::_process_incoming_message`:
direction `"incoming"`, content/type/attachments per the source's key-presence
branching, `timestamp = datetime.fromtimestamp(int(message_data.get("timestamp", 0)))`
(seconds since the epoch, `0` when the key is absent), and the platform
message id stashed in metadata. -/
structure MessageRow where
  external_id : Option String
  direction : String
  message_type : String
  content : String
  attachments : List (String × String)
  timestamp : Int
  whatsapp_message_id : Option String
  deriving Repr, DecidableEq

/-- Python's `int(str)` on a decimal string: optional sign followed by one
or more digits; anything else raises `ValueError` (`none`). -/
def pyDigitsToNat? (ds : List Char) : Option Nat :=
  if ds = [] then none
  else ds.foldl
    (fun acc? c => acc?.bind
      (fun acc => if c.isDigit then some (acc * 10 + (c.toNat - 48)) else none))
    (some 0)

/-- Python's `int(str)`: `none` is `ValueError`. -/
def pyInt? (s : String) : Option Int :=
  match s.toList with
  | '-' :: ds => (pyDigitsToNat? ds).map (fun n => -(n : Int))
  | '+' :: ds => (pyDigitsToNat? ds).map (fun n => (n : Int))
  | ds => (pyDigitsToNat? ds).map (fun n => (n : Int))

/-- Embedding of `_process_incoming_message` for a single message: `none` models the
paths that raise — `int(...)` on an unparseable timestamp string
(`ValueError`), or `message_data["image"]["id"]` /
`message_data["document"]["id"]` when the `id` key is absent (`KeyError`).
The branching is key-presence (`"text" in message_data` etc.), not the
`type` field. -/
def mkMessageRow (m : WAMsg) : Option MessageRow :=
  let tsParsed : Option Int :=
    match m.ts with
    | none => some 0
    | some s => pyInt? s
  match tsParsed with
  | none => none
  | some ts =>
    let fields : Option (String × String × List (String × String)) :=
      match m.text with
      | some body => some (body, "text", [])
      | none =>
        match m.image with
        | some im =>
          match im.mediaId with
          | none => none
          | some aid => some (im.caption.getD "Image received", "image", [("image", aid)])
        | none =>
          match m.document with
          | some d =>
            match d.mediaId with
            | none => none
            | some aid => some (d.caption.getD "Document received", "document", [("document", aid)])
          | none => some ("", "text", [])
    match fields with
    | none => none
    | some (content, mtype, atts) =>
      some { external_id := m.sender, direction := "incoming",
             message_type := mtype, content := content, attachments := atts,
             timestamp := ts, whatsapp_message_id := m.mid }

/-- The message loop of `process_webhook`: appends one row per message, in
order; a raising message aborts the remainder (the enclosing `try` catches
at the top level) but rows already written stay written. -/
def appendRows (st : List MessageRow) : List WAMsg → Bool × List MessageRow
  | [] => (true, st)
  | m :: ms =>
    match mkMessageRow m with
    | none => (false, st)
    | some r => appendRows (st ++ [r]) ms

/-- Embedding of `WhatsAppService.process_webhook` (messaging variant): the
`if not webhook_data.get("entry")` guard raises `ValueError` (caught →
`"failed"`), then the triple nested loop over
`entry[] / changes[] / value.messages[]` processes every message in payload
order. -/
def processWebhookMessaging (st : List MessageRow) (p : WAPayload) :
    String × List MessageRow :=
  if p.entry = [] then ("failed", st)
  else
    match appendRows st (allMessages p) with
    | (true, st1) => ("processed", st1)
    | (false, st1) => ("failed", st1)

/-- A payload every message of which processes without raising: timestamps
parse and media carry ids. -/
def ValidWAPayload (p : WAPayload) : Prop :=
  ∀ m ∈ allMessages p, (mkMessageRow m).isSome

instance (p : WAPayload) : Decidable (ValidWAPayload p) := by
  unfold ValidWAPayload
  infer_instance

/-- A well-formed inbound text message, as WhatsApp delivers it. -/
def waTextMsg (i ts body : String) : WAMsg :=
  { mid := some i, sender := some "15551234567", ts := some ts,
    mtype := some "text", text := some body, image := none,
    document := none, audio := false, video := none }

/-- The single `changes[]` element of the two-message payload. -/
def twoMsgChange : WAChange :=
  { messages := [waTextMsg "wamid.1" "1677185914" "hello",
                 waTextMsg "wamid.2" "1677185915" "are you there?"],
    contacts := [{ profileName := some "Jane Doe" }] }

/-- A concrete two-message payload: one entry, one change, two well-formed
text messages. -/
def twoMsgPayload : WAPayload :=
  { entry := [{ changes := [twoMsgChange] }] }

/-- Claim C4 (as stated, refuted): the claim demands that the WhatsApp
webhook parser return exactly K InboundEvents for a valid K-message
payload.  For the two-message payload above (K = 2), the matrix-integration
parser `process_incoming_message` — the first parser the claim cites —
returns from inside its message loop and yields exactly one event, so the
event count differs from K. -/
theorem c4_counterexample :
    (matrixParsedEvents twoMsgPayload).length ≠ (allMessages twoMsgPayload).length ∧
    (matrixParsedEvents twoMsgPayload).length = 1 ∧
    (allMessages twoMsgPayload).length = 2 := by
  refine ⟨?_, ?_, ?_⟩ <;> decide

theorem appendRows_eq_of_valid (msgs : List WAMsg) :
    ∀ st : List MessageRow, (∀ m ∈ msgs, (mkMessageRow m).isSome) →
      appendRows st msgs = (true, st ++ msgs.filterMap mkMessageRow) := by
  induction msgs with
  | nil => intro st _; simp [appendRows]
  | cons m ms ih =>
    intro st hall
    have hm : (mkMessageRow m).isSome := hall m (List.mem_cons_self m ms)
    obtain ⟨r, hr⟩ := Option.isSome_iff_exists.mp hm
    have hrest : ∀ m' ∈ ms, (mkMessageRow m').isSome :=
      fun m' hm' => hall m' (List.mem_cons_of_mem m hm')
    simp only [appendRows, hr]
    rw [ih (st ++ [r]) hrest]
    simp [List.filterMap_cons, hr]

theorem length_filterMap_mkMessageRow (msgs : List WAMsg)
    (h : ∀ m ∈ msgs, (mkMessageRow m).isSome) :
    (msgs.filterMap mkMessageRow).length = msgs.length := by
  induction msgs with
  | nil => simp
  | cons m ms ih =>
    have hm : (mkMessageRow m).isSome := h m (List.mem_cons_self m ms)
    obtain ⟨r, hr⟩ := Option.isSome_iff_exists.mp hm
    have hrest : ∀ m' ∈ ms, (mkMessageRow m').isSome :=
      fun m' hm' => h m' (List.mem_cons_of_mem m hm')
    simp [List.filterMap_cons, hr, ih hrest]

/-- Claim C4 (amended): the exactly-K, order-preserving guarantee holds for
the messaging-app parser `process_webhook` but not for the
matrix-integration parser: for every payload with a non-empty `entry` array
whose messages all process without raising, `process_webhook` reports
`"processed"` and appends exactly one `Message` row per webhook message, in
payload order (the appended suffix is the in-order image of `allMessages`
under `_process_incoming_message`, so its length is K); the
matrix-integration parser `process_incoming_message` yields at most one
event — the payload's first message — for every payload whatsoever. -/
theorem c4_amended_messaging_exact_k (st : List MessageRow) (p : WAPayload)
    (hvalid : ValidWAPayload p) (hne : p.entry ≠ []) :
    (processWebhookMessaging st p).1 = "processed" ∧
    (processWebhookMessaging st p).2 =
      st ++ (allMessages p).filterMap mkMessageRow ∧
    ((allMessages p).filterMap mkMessageRow).length = (allMessages p).length ∧
    (matrixParsedEvents p).length ≤ 1 := by
  have happ := appendRows_eq_of_valid (allMessages p) st hvalid
  refine ⟨?_, ?_, length_filterMap_mkMessageRow (allMessages p) hvalid, ?_⟩
  · simp [processWebhookMessaging, hne, happ]
  · simp [processWebhookMessaging, hne, happ]
  · unfold matrixParsedEvents
    cases matrixProcessIncomingMessage p <;> simp

/-- Witness for `c4_amended_messaging_exact_k`: the two-message payload,
processed from an empty table, appends exactly its two rows in order. -/
theorem c4_amended_messaging_exact_k_witness :
    (processWebhookMessaging [] twoMsgPayload).1 = "processed" ∧
    (processWebhookMessaging [] twoMsgPayload).2 =
      [] ++ (allMessages twoMsgPayload).filterMap mkMessageRow ∧
    ((allMessages twoMsgPayload).filterMap mkMessageRow).length =
      (allMessages twoMsgPayload).length ∧
    (matrixParsedEvents twoMsgPayload).length ≤ 1 :=
  c4_amended_messaging_exact_k [] twoMsgPayload (by decide) (by decide)

/-! ## Message timestamps — `messaging/services/whatsapp_service.py`,
`WhatsAppService._process_incoming_message`

The source sets the stored ordering timestamp with
`datetime.fromtimestamp(int(message_data.get("timestamp", 0)))`: the
platform-provided value is used verbatim whenever present and parseable —
with no plausibility check — and an *absent* value becomes `int(0)`, the
Unix epoch, never the arrival time.  `timezone.now()` is not read anywhere
in the method. -/

/-- Modelled from the spec (§4.5 `AppendMessage`), for comparison with the
code: "timestamp defaults to normalizer-provided platform timestamp,
falling back to arrival time if absent or implausible (before epoch or far
in the future)".  "Far in the future" is rendered as beyond 2100-01-01 UTC;
the refutation below uses an *absent* timestamp, so it does not depend on
that choice of bound. -/
def claimStoredTimestamp (m : WAMsg) (arrivalTime : Int) : Int :=
  match m.ts with
  | none => arrivalTime
  | some s =>
    match pyInt? s with
    | none => arrivalTime
    | some ts => if 0 ≤ ts ∧ ts ≤ 4102444800 then ts else arrivalTime

/-- A well-formed text message whose `timestamp` key is absent. -/
def msgNoTs : WAMsg :=
  { mid := some "wamid.9", sender := some "15551234567", ts := none,
    mtype := some "text", text := some "hi", image := none,
    document := none, audio := false, video := none }

/-- Claim C9 (as stated, refuted): for a message with *no* platform
timestamp, arriving at time 1700000000, the claim requires the stored
timestamp to fall back to the arrival time; the code instead stores
`int(0)` — the Unix epoch.  Closed evaluation: the created row's timestamp
is `0`, the claim's required value is `1700000000`, and they differ. -/
theorem c9_counterexample :
    ((mkMessageRow msgNoTs).map (fun r => r.timestamp)) = some 0 ∧
    claimStoredTimestamp msgNoTs 1700000000 = 1700000000 ∧
    ((mkMessageRow msgNoTs).map (fun r => r.timestamp)) ≠
      some (claimStoredTimestamp msgNoTs 1700000000) := by
  refine ⟨?_, ?_, ?_⟩ <;> decide

/-- Claim C9 (amended): the stored ordering timestamp equals the
platform-provided timestamp whenever one is present and parses as an
integer — with **no** plausibility check of any kind — and when the
timestamp key is absent it is `0` (the Unix epoch); the arrival time is
never consulted.  Formally: whenever `_process_incoming_message` creates a
row, the row's timestamp is exactly `int(message_data.get("timestamp", 0))`. -/
theorem c9_amended_timestamp (m : WAMsg) (row : MessageRow)
    (h : mkMessageRow m = some row) :
    some row.timestamp =
      (match m.ts with | none => some 0 | some s => pyInt? s) := by
  simp only [mkMessageRow] at h
  split at h
  · exact absurd h (by simp)
  · next ts hts =>
      rw [hts]
      split at h <;>
        first
          | (cases Option.some_inj.mp h; rfl)
          | exact absurd h (by simp)

/-- Witness for `c9_amended_timestamp`: a message carrying platform
timestamp `"1677185914"` stores exactly `1677185914`. -/
theorem c9_amended_timestamp_witness :
    some ((mkMessageRow (waTextMsg "wamid.7" "1677185914" "hey")).getD
        { external_id := none, direction := "", message_type := "",
          content := "", attachments := [], timestamp := 0,
          whatsapp_message_id := none }).timestamp =
      (match (waTextMsg "wamid.7" "1677185914" "hey").ts with
        | none => some 0 | some s => pyInt? s) :=
  c9_amended_timestamp (waTextMsg "wamid.7" "1677185914" "hey")
    ((mkMessageRow (waTextMsg "wamid.7" "1677185914" "hey")).getD
        { external_id := none, direction := "", message_type := "",
          content := "", attachments := [], timestamp := 0,
          whatsapp_message_id := none })
    (by decide)

/-! ## Bridge configuration lifecycle — `companies/bridge_views.py`,
`CompanyBridgeConfigurationViewSet.test` / `.activate`

The `test` action, on a successful platform test, sets
`config.status = 'active'` **directly** (and `setup_completed_at`/
`last_sync_at`), saves, and only then fires the Matrix initialization; on a
failed test it sets `'error'`.  There is no transition to `'configured'`
inside `test` — that status is set by the separate `configure` action.  The
`activate` action refuses any configuration whose status is not
`'configured'` and otherwise sets `'active'`.

Note on the Matrix call: `matrix_service.initialize_company_bridge(...)` is
an `async` coroutine function invoked *without* `await` from these
synchronous views; the call constructs a coroutine object and performs no
work and raises nothing, so it cannot divert the control flow modelled
here. -/

/-- The `test` action: resulting configuration status.  `serializerValid` is
`BridgeTestSerializer.is_valid()` (invalid data returns 400 before touching
the status); `testSuccess` is `test_result['success']` from
`_test_bridge_connection`, which catches its own exceptions and returns
`{'success': False, ...}` on any failure. -/
def testAction (status0 : String) (serializerValid : Bool) (testSuccess : Bool) : String :=
  if !serializerValid then status0
  else if testSuccess then "active"
  else "error"

/-- The `activate` action: resulting configuration status.  A non-`configured`
configuration is rejected with 400 and left unchanged; a `configured` one
becomes `active`. -/
def activateAction (status0 : String) : String :=
  if status0 ≠ "configured" then status0 else "active"

/-- Claim C6 (as stated, refuted): for a configuration in `pending` status,
a successful connection test is claimed to move the status to `configured`
and not directly to `active`.  Evaluating the `test` action at `pending`
with valid data and a successful platform test: the resulting status is
`active`, not `configured` — the status machine skips `configured`
entirely on this path. -/
theorem c6_counterexample :
    testAction "pending" true true = "active" ∧
    testAction "pending" true true ≠ "configured" := by
  refine ⟨rfl, ?_⟩
  decide

/-- Claim C6 (amended): a successful test moves a configuration of *any*
prior status (in particular `pending`) directly to `active`, with the
workspace-room initialization fired inside the same `test` call; a failed
test moves it to `error`.  The separate `activate` action is the only
`configured → active` edge: it moves `configured` to `active` and leaves
every other status unchanged (rejecting the request). -/
theorem c6_amended_status_machine (s : String) (hs : s ≠ "configured") :
    testAction s true true = "active" ∧
    testAction s true false = "error" ∧
    activateAction "configured" = "active" ∧
    activateAction s = s := by
  refine ⟨rfl, rfl, rfl, ?_⟩
  simp [activateAction, hs]

/-- Witness for `c6_amended_status_machine` at status `pending`. -/
theorem c6_amended_status_machine_witness :
    testAction "pending" true true = "active" ∧
    testAction "pending" true false = "error" ∧
    activateAction "configured" = "active" ∧
    activateAction "pending" = "pending" :=
  c6_amended_status_machine "pending" (by decide)

/-! ## Bridge manager — `matrix_integration/services/bridge_manager.py`,
`BridgeManager.send_message` / `process_webhook_data`, with the models of
`matrix_integration/models.py`

Two facts about the collaborating classes, checked against their source,
shape this embedding:

* `BridgeCredentials` declares the fields `bridge`, `encrypted_data`,
  `encryption_version`, `created_at`, `updated_at` — there is **no**
  `credentials_json` attribute, so `json.loads(credentials.credentials_json)`
  inside `initialize_bridge` raises `AttributeError` whenever a credentials
  row exists; the enclosing `except` sets the bridge status to `'error'`
  and returns `False`.  The raise happens *before* the platform-service
  construction, so `self.platform_services` is never populated by this
  method.
* None of the three platform-service classes
  (`platform_services/whatsapp_service.py`, `telegram_service.py`,
  `instagram_service.py`) defines a `parse_webhook_data` method, so
  `platform_service.parse_webhook_data(webhook_data)` in
  `process_webhook_data` raises `AttributeError` into the enclosing
  `except`, which returns `False` before any `BridgeMessage` is created. -/

/-- A `BridgeConnection` row: primary key, owning company, platform,
lifecycle status (`pending`/`authenticating`/`connected`/`error`/
`disconnected`). -/
structure BridgeConn where
  cid : Nat
  company : Nat
  platform : String
  status : String
  deriving Repr, DecidableEq

/-- A `BridgeMessage` row, carrying the fields the model class declares
that this subsystem writes: `bridge`, `external_message_id` (the
platform's message id), `content`, `message_type`, `direction`,
`sender_platform_id`, `processed`.  Note the model declares
`external_message_id` — not `external_id` — and `processed` — not
`status`. -/
structure BridgeMsgRow where
  bridgeId : Nat
  external_message_id : String
  content : String
  message_type : String
  direction : String
  sender_platform_id : String
  processed : Bool
  deriving Repr, DecidableEq

/-- The state `BridgeManager` reads and writes: the `BridgeConnection`
table, the set of bridge ids having a `BridgeCredentials` row, the keys of
the in-memory `self.platform_services` dict, and the `BridgeMessage`
table. -/
structure BMState where
  bridges : List BridgeConn
  credentialRows : List Nat
  services : List String
  messages : List BridgeMsgRow
  deriving Repr, DecidableEq

/-- The platforms `initialize_bridge`/`process_webhook_data` accept. -/
def supportedPlatforms : List String := ["whatsapp", "telegram", "instagram"]

/-- The key `bridge_key` as the source computes it. -/
def bridgeKeyOf (b : BridgeConn) : String :=
  b.platform ++ "_" ++ toString b.cid

/-- Embedding of `bridge_connection.status = s; bridge_connection.save()`. -/
def setBridgeStatus (st : BMState) (cid : Nat) (s : String) : BMState :=
  { st with bridges :=
      st.bridges.map (fun b => if b.cid = cid then { b with status := s } else b) }

/-- Embedding of `BridgeManager.initialize_bridge`: unsupported platform → `False`
(status untouched); no `BridgeCredentials` row → `False` (status
untouched); otherwise `json.loads(credentials.credentials_json)` raises
`AttributeError` (no such field on `BridgeCredentials`), the `except`
branch sets the status to `'error'` and returns `False`.  No path returns
`True`, touches `self.platform_services`, or creates any `BridgeMessage`. -/
def initBridgeCall (st : BMState) (b : BridgeConn) : Bool × BMState :=
  if ¬ (b.platform ∈ supportedPlatforms) then (false, st)
  else if ¬ (b.cid ∈ st.credentialRows) then (false, st)
  else (false, setBridgeStatus st b.cid "error")

/-- Embedding of `BridgeConnection.objects.filter(company__id=company_id,
platform=platform, status='connected').first()`. -/
def findConnectedBridge (st : BMState) (companyId : Nat) (platform : String) :
    Option BridgeConn :=
  st.bridges.find?
    (fun b => b.company == companyId && b.platform == platform && b.status == "connected")

/-- Embedding of `BridgeManager.process_webhook_data(platform, company_id, webhook_data)`.
Control flow from the source: unsupported platform → `False`; no bridge in
`'connected'` status for the `(company, platform)` pair → `False`; service
not cached → `initialize_bridge` (which always fails, see above) → `False`;
service cached → `platform_service.parse_webhook_data(...)` raises
`AttributeError` (no such method on any platform-service class) → the
`except` handler returns `False`.  The `BridgeMessage.objects.create`
statement for the inbound message is therefore unreachable, and no
`BridgeWebhook` row is ever created or its `processed` flag consulted —
`BridgeWebhook` appears nowhere in this method. -/
def processWebhookData (st : BMState) (platform : String) (companyId : Nat) :
    Bool × BMState :=
  if ¬ (platform ∈ supportedPlatforms) then (false, st)
  else
    match findConnectedBridge st companyId platform with
    | none => (false, st)
    | some b =>
      if bridgeKeyOf b ∈ st.services then
        (false, st)
      else
        match initBridgeCall st b with
        | (true, st1) => (false, st1)
        | (false, st1) => (false, st1)

/-- The dict a platform service's `send_message` returns (e.g.
`{'success': ..., ...}`); `bridge_manager` only tests its truthiness. -/
abbrev SendDict := List (String × String)

/-- The call `BridgeMessage.objects.create(bridge=bridge_connection,
external_id=external_id, content=message, direction='outbound',
status='sent')` from `send_message`.  `BridgeMessage` declares
`external_message_id`, not `external_id`, and `processed`, not `status`
(see `BridgeMsgRow`), so Django's model constructor rejects the unexpected
keyword arguments with `TypeError`: the call raises and no row is created
(`none`), exactly like the other undeclared-attribute accesses in this
module. -/
def createOutboundBridgeMessage (_b : BridgeConn) (_externalId _message : String) :
    Option BridgeMsgRow :=
  none

/-- The tail of `send_message` after the service is available:
`success = await platform_service.send_message(...)` (`platformSend`;
`none` models the await raising, caught by the enclosing `except` →
`False`), then `if success:` — Python truthiness of the returned dict, i.e.
non-emptiness — attempt the outbound `BridgeMessage.objects.create` and
`return True`, else `return False`.  The create raises `TypeError` (see
`createOutboundBridgeMessage`) into the enclosing `except`, which returns
`False` — so the `return True` statement is dead code. -/
def sendViaService (st : BMState) (b : BridgeConn) (externalId message : String)
    (platformSend : Option SendDict) : Bool × BMState :=
  match platformSend with
  | none => (false, st)
  | some result =>
    if result ≠ [] then
      match createOutboundBridgeMessage b externalId message with
      | none => (false, st)
      | some row => (true, { st with messages := st.messages ++ [row] })
    else (false, st)

/-- Embedding of `BridgeManager.send_message(bridge_connection, external_id, message)`:
if the bridge's service is not cached, try `initialize_bridge`, returning
`False` when (as always, see `initBridgeCall`) it fails; otherwise send via
the cached service.  The whole body sits in `try/except` returning `False`,
so the method is total. -/
def sendMessage (st : BMState) (b : BridgeConn) (externalId message : String)
    (platformSend : Option SendDict) : Bool × BMState :=
  if ¬ (bridgeKeyOf b ∈ st.services) then
    match initBridgeCall st b with
    | (false, st1) => (false, st1)
    | (true, st1) => sendViaService st1 b externalId message platformSend
  else sendViaService st b externalId message platformSend

theorem initBridgeCall_fst (st : BMState) (b : BridgeConn) :
    (initBridgeCall st b).1 = false := by
  unfold initBridgeCall
  split
  · rfl
  · split <;> rfl

theorem initBridgeCall_messages (st : BMState) (b : BridgeConn) :
    (initBridgeCall st b).2.messages = st.messages := by
  unfold initBridgeCall setBridgeStatus
  split
  · rfl
  · split <;> rfl

theorem sendViaService_result (st : BMState) (b : BridgeConn)
    (externalId message : String) (platformSend : Option SendDict) :
    sendViaService st b externalId message platformSend = (false, st) := by
  unfold sendViaService createOutboundBridgeMessage
  cases platformSend with
  | none => rfl
  | some result =>
    by_cases hd : result = [] <;> simp [hd]

/-- Claim C10 (confirmed): `send_message` is total — every path yields a
boolean, the `try/except` swallowing any raise — and whenever it returns
`False`, no outbound `BridgeMessage` row has been created by that call.  In
fact the returned boolean is always `False` and the message table is always
left exactly as it was: the one `BridgeMessage.objects.create` sits behind
the truthy-send check but passes the keyword arguments `external_id` and
`status`, which the `BridgeMessage` model does not declare, so it raises
`TypeError` into the handler and the `return True` path is dead code.
Every conjunct of the claim holds — the parenthetical "the 'sent' record
exists only on the True path" vacuously, since neither a `True` return nor
a record ever materializes. -/
theorem c10_send_message_atomic (st : BMState) (b : BridgeConn)
    (externalId message : String) (platformSend : Option SendDict) :
    (sendMessage st b externalId message platformSend).1 = false ∧
    (sendMessage st b externalId message platformSend).2.messages = st.messages := by
  unfold sendMessage
  split
  · split
    next st1 heq =>
      have hmsg := initBridgeCall_messages st b
      rw [heq] at hmsg
      exact ⟨rfl, hmsg⟩
    next st1 heq =>
      have hfst := initBridgeCall_fst st b
      rw [heq] at hfst
      exact absurd hfst (by simp)
  · rw [sendViaService_result]
    exact ⟨rfl, rfl⟩

theorem processWebhookData_fst (st : BMState) (platform : String) (companyId : Nat) :
    (processWebhookData st platform companyId).1 = false := by
  unfold processWebhookData
  split
  · rfl
  · split
    · rfl
    · split
      · rfl
      · split <;> rfl

theorem processWebhookData_messages (st : BMState) (platform : String) (companyId : Nat) :
    (processWebhookData st platform companyId).2.messages = st.messages := by
  unfold processWebhookData
  split
  · rfl
  · split
    · rfl
    · next b heq =>
        split
        · rfl
        · split
          all_goals
            next st1 hinit =>
              have hmsg := initBridgeCall_messages st b
              rw [hinit] at hmsg
              exact hmsg

/-- Claim C5 (code_bug support): evaluating the webhook-processing code:
for *every* state, platform and company — in particular for a fresh, never
processed event on a `'connected'` bridge with a credentials row —
`process_webhook_data` returns `False` and appends no `BridgeMessage`
whatsoever (first conjunct, universally), because the platform services it
constructs define neither `initialize_connection` nor `parse_webhook_data`
and `BridgeCredentials` has no `credentials_json`; consequently no
`BridgeWebhook` row is ever marked processed, and "replaying" any event is
a no-op only because processing itself never stores anything.  The last
conjuncts evaluate the failing input: a connected WhatsApp bridge of
company 1 with credentials, processed twice — both runs return `False` and
the message table stays empty. -/
theorem c5_processing_never_stores :
    (∀ (st : BMState) (platform : String) (companyId : Nat),
      (processWebhookData st platform companyId).1 = false ∧
      (processWebhookData st platform companyId).2.messages = st.messages) ∧
    (processWebhookData
        { bridges := [{ cid := 7, company := 1, platform := "whatsapp",
                        status := "connected" }],
          credentialRows := [7], services := [], messages := [] }
        "whatsapp" 1).2.messages = [] ∧
    (processWebhookData
      (processWebhookData
        { bridges := [{ cid := 7, company := 1, platform := "whatsapp",
                        status := "connected" }],
          credentialRows := [7], services := [], messages := [] }
        "whatsapp" 1).2 "whatsapp" 1).2.messages = [] := by
  refine ⟨fun st platform companyId =>
    ⟨processWebhookData_fst st platform companyId,
     processWebhookData_messages st platform companyId⟩, ?_, ?_⟩ <;> decide

/-- The C7 counterexample state: company 1's only WhatsApp bridge sits in
`'error'` status (credentials present, no cached service, no messages). -/
def errorBridgeState : BMState :=
  { bridges := [{ cid := 7, company := 1, platform := "whatsapp",
                  status := "error" }],
    credentialRows := [7], services := [], messages := [] }

/-- Claim C7 (as stated, refuted): for an inbound WhatsApp webhook of a
tenant whose bridge configuration is in `'error'` status, the claim
requires the inbound message still to be recorded.  Evaluating
`process_webhook_data` on `errorBridgeState`: the `status='connected'`
filter finds no bridge, the call returns `False` with the state untouched,
and the message table has not grown by a row. -/
theorem c7_counterexample :
    processWebhookData errorBridgeState "whatsapp" 1 = (false, errorBridgeState) ∧
    (processWebhookData errorBridgeState "whatsapp" 1).2.messages.length ≠
      errorBridgeState.messages.length + 1 := by
  refine ⟨?_, ?_⟩ <;> decide

/-- Claim C7 (amended): inbound webhook data is dropped — return `False`,
no message row, state unchanged — whenever the tenant has no bridge in
`'connected'` status for the platform; a configuration in `'error'` (or any
other non-`'connected'`) status therefore loses the inbound message rather
than recording it. -/
theorem c7_amended_inbound_requires_connected (st : BMState)
    (platform : String) (companyId : Nat)
    (h : findConnectedBridge st companyId platform = none) :
    processWebhookData st platform companyId = (false, st) := by
  unfold processWebhookData
  split
  · rfl
  · rw [h]

/-- Witness for `c7_amended_inbound_requires_connected` at
`errorBridgeState`. -/
theorem c7_amended_inbound_requires_connected_witness :
    processWebhookData errorBridgeState "whatsapp" 1 = (false, errorBridgeState) :=
  c7_amended_inbound_requires_connected errorBridgeState "whatsapp" 1 (by decide)
